import Mathlib

/-!
Verification development for the model-governance scripts of the
`deriv-ws` repository (ai-layer governance pipeline).

The Python scripts are shallowly embedded as pure Lean functions:
  * numeric values (`float` columns, win rates, PnL) are modelled as `ℚ`;
  * a pandas `DataFrame` of signal rows is a `List` of structure values;
  * a script run that raises an exception or returns early without
    producing its output is modelled with `Option` / a dedicated outcome
    constructor;
  * file-system reads appear as explicit parameters, file writes as the
    returned value (`none` = no write).
Each definition is translated from the named source file.
-/

namespace DerivWs

/-! ## ComparativeAnalytics — `apps/ai-layer/scripts/comparative_analytics.py`

An attributed signal row of the `shadow_signals` table, as consumed by
`calculate_metrics`.  `realized_pnl` is `none` when the column value is
null or non-numeric (pandas `to_numeric(errors='coerce')` turns both into
`NaN`); `regime` is `none` for a null regime cell (pandas `NaN`, dropped
by `groupby`).  `conf_bucket` is the column that `calculate_metrics`
itself assigns (`df['conf_bucket'] = pd.cut(...)`); rows fetched from the
store carry `none` there. -/

inductive Bucket where
  | Low
  | Mid
  | High
deriving DecidableEq, Repr

structure Signal where
  model_id : String
  outcome : String
  confidence : ℚ
  realized_pnl : Option ℚ
  regime : Option String
  conf_bucket : Option Bucket
deriving DecidableEq, Repr

/-- `pd.cut(confidence, bins=[0, 0.5, 0.75, 1.0], labels=['Low','Mid','High'])`:
with pandas defaults (`right=True`, `include_lowest=False`) the bins are the
left-open right-closed intervals `(0, 0.5]`, `(0.5, 0.75]`, `(0.75, 1.0]`;
a value outside them (in particular exactly `0`) gets no bucket (`NaN`). -/
def confBucket (c : ℚ) : Option Bucket :=
  if 0 < c ∧ c ≤ 1/2 then some Bucket.Low
  else if 1/2 < c ∧ c ≤ 3/4 then some Bucket.Mid
  else if 3/4 < c ∧ c ≤ 1 then some Bucket.High
  else none

/-- Win rate of a list of signal rows: `(x == 'WIN').mean()`. -/
def listWinRate (l : List Signal) : ℚ :=
  (l.countP (fun s => s.outcome == "WIN") : ℚ) / (l.length : ℚ)

/-- The metrics record returned by `calculate_metrics` for a non-empty
input.  `bucket_wr` is the dict over the three fixed `pd.cut` categories;
`regime_wr` is the dict keyed by the regime labels present in the input
(a Python dict, so key order carries no meaning; we keep first-occurrence
order). -/
structure Metrics where
  count : Nat
  win_rate : ℚ
  total_pnl : ℚ
  avg_pnl : ℚ
  bucket_wr : Bucket → ℚ
  regime_wr : List (String × ℚ)

/-- `calculate_metrics(df)` from `comparative_analytics.py`.

Returns the metrics together with the post-call state of the caller's
DataFrame: the function assigns `df['realized_pnl'] = to_numeric(...).fillna(0)`
and `df['conf_bucket'] = pd.cut(...)` in place, so the argument is mutated
on the non-empty path.  An empty input returns the empty dict `{}`
(modelled `none`) before any assignment. -/
def calculate_metrics (sigs : List Signal) : Option Metrics × List Signal :=
  if sigs.length = 0 then (none, sigs)
  else
    let total := sigs.length
    let win_rate := listWinRate sigs
    -- df['realized_pnl'] = pd.to_numeric(df['realized_pnl'], errors='coerce').fillna(0)
    let sigs1 := sigs.map (fun s => { s with realized_pnl := some (s.realized_pnl.getD 0) })
    let total_pnl := (sigs1.map (fun s => s.realized_pnl.getD 0)).sum
    let avg_pnl := total_pnl / (total : ℚ)
    -- df['conf_bucket'] = pd.cut(df['confidence'].astype(float), bins=[0,0.5,0.75,1.0], ...)
    let sigs2 := sigs1.map (fun s => { s with conf_bucket := confBucket s.confidence })
    -- groupby('conf_bucket') over the categorical: all three categories appear;
    -- the source lambda guards the empty group with `if len(x) > 0 else 0`.
    let bucket_wr := fun b =>
      let xs := sigs2.filter (fun s => s.conf_bucket == some b)
      if xs.length > 0 then listWinRate xs else 0
    -- groupby('regime'): null regimes are dropped, groups are the labels present.
    let regimeKeys := (sigs2.filterMap (fun s => s.regime)).dedup
    let regime_wr := regimeKeys.map (fun r =>
      let xs := sigs2.filter (fun s => s.regime == some r)
      (r, if xs.length > 0 then listWinRate xs else 0))
    (some { count := total
            win_rate := win_rate
            total_pnl := total_pnl
            avg_pnl := avg_pnl
            bucket_wr := bucket_wr
            regime_wr := regime_wr },
     sigs2)

/-! ## Threshold replay — `apps/ai-layer/scripts/replay_thresholds.py` -/

/-- `calculate_drawdown(df)`: cumulative sum of the (coerced) PnL series,
running peak, most negative `cum - peak`; `0` for an empty frame.
`ddList` carries the per-row drawdown values in row order. -/
def ddList (pnls : List ℚ) : List ℚ :=
  let cums := (pnls.scanl (· + ·) 0).tail
  match cums with
  | [] => []
  | c :: cs => (c :: cs).zipWith (· - ·) (cs.scanl max c)

def calculate_drawdown (sigs : List Signal) : ℚ :=
  if sigs.isEmpty then 0
  else
    match ddList (sigs.map (fun s => s.realized_pnl.getD 0)) with
    | [] => 0
    | d :: ds => ds.foldl min d

/-- The human-readable reason strings appended by `replay_thresholds`,
abstracted from their interpolated f-string payloads:
`winRateDegraded` = "Win Rate degraded (Delta ...)",
`pnlDropWarning` = "Warning: Total PnL dropped >20% (Volume tradeoff).",
`drawdownWorsened` = "Max Drawdown worsened (...)". -/
inductive ReplayReason where
  | winRateDegraded
  | pnlDropWarning
  | drawdownWorsened
deriving DecidableEq, Repr

/-- One side (baseline / simulated) of the `replay_validation.json` output. -/
structure SideStats where
  threshold : ℚ
  win_rate : ℚ
  total_pnl : ℚ
  max_drawdown : ℚ
deriving DecidableEq, Repr

structure ReplayResult where
  baseline : SideStats
  simulated : SideStats
  passed : Bool
  reasons : List ReplayReason
deriving DecidableEq, Repr

/-- `replay_thresholds()` given the proposal's minimum confidence and the
fetched attributed history.  `none` models the runs that produce no
`replay_validation.json`: the empty-history early return, and the
`KeyError` raised at `metrics_base['count']` / `metrics_sim['count']`
when a filtered frame is empty and `calculate_metrics` returned `{}`. -/
def replay_thresholds (proposedMinConf : ℚ) (data : List Signal) : Option ReplayResult :=
  if data.isEmpty then none
  else
    let baselineConf : ℚ := 6/10
    let df_base := data.filter (fun s => decide (s.confidence ≥ baselineConf))
    let resBase := calculate_metrics df_base
    let base_dd := calculate_drawdown resBase.2
    let df_sim := data.filter (fun s => decide (s.confidence ≥ proposedMinConf))
    let resSim := calculate_metrics df_sim
    let sim_dd := calculate_drawdown resSim.2
    match resBase.1, resSim.1 with
    | some mb, some ms =>
      -- Rule 1: win rate must not degrade by more than 1 point
      let r1 := decide (ms.win_rate < mb.win_rate - 1/100)
      -- Rule 2: PnL drop > 20% while still net-positive: warning only
      let r2 := decide (ms.total_pnl < mb.total_pnl * (8/10) ∧ ms.total_pnl > 0)
      -- Rule 3: drawdown deeper than baseline * 1.1 (drawdowns are ≤ 0)
      let r3 := decide (sim_dd < base_dd * (11/10))
      let reasons :=
        (if r1 then [ReplayReason.winRateDegraded] else []) ++
        (if r2 then [ReplayReason.pnlDropWarning] else []) ++
        (if r3 then [ReplayReason.drawdownWorsened] else [])
      some { baseline := { threshold := baselineConf, win_rate := mb.win_rate,
                           total_pnl := mb.total_pnl, max_drawdown := base_dd }
             simulated := { threshold := proposedMinConf, win_rate := ms.win_rate,
                            total_pnl := ms.total_pnl, max_drawdown := sim_dd }
             passed := !(r1 || r3)
             reasons := reasons }
    | _, _ => none

/-! ## PromotionGate — `apps/ai-layer/scripts/gatekeeper.py` -/

/-- The rejection messages of `evaluate_promotion`, abstracted from their
interpolated payloads: `noData` = "No data available.", `noActive` =
"Could not identify Active model for comparison." (both returned as a bare
string in the source), `insufficientSamples` = "Insufficient samples: n < 50",
`insufficientImprovement` = "Win Rate not improved enough: ...",
`regimeRegression r` = "Regime Regression in r: ...",
`calibrationFailure` = "Unstable High Confidence Accuracy: ...". -/
inductive GateReason where
  | noData
  | noActive
  | insufficientSamples
  | insufficientImprovement
  | regimeRegression (regime : String)
  | calibrationFailure
deriving DecidableEq, Repr

/-- Auto-detection of the active model: `df['model_id'].value_counts()`
sorts ids by descending sample count, and the loop takes the first id
different from the candidate — i.e. an id of maximal count among the
non-candidate ids (first occurrence on ties). -/
def resolveActive (candidate : String) (activeOpt : Option String)
    (data : List Signal) : Option String :=
  match activeOpt with
  | some a => some a
  | none =>
    let others := ((data.map (fun s => s.model_id)).dedup).filter (fun m => m ≠ candidate)
    others.foldl (fun best m =>
      match best with
      | none => some m
      | some b =>
        if (data.countP (fun s => s.model_id == m)) >
           (data.countP (fun s => s.model_id == b)) then some m else some b)
      none

/-- `evaluate_promotion(candidate_id, active_id)` over the fetched
attributed history.  `none` models the `KeyError` raised at
`cand_metrics['count']` / `active_metrics['win_rate']` when either
model's filtered frame is empty and `calculate_metrics` returned `{}`.
Thresholds: MIN_SAMPLES = 50, MIN_WR_IMPROVEMENT = 0.005,
MAX_REGIME_REGRESSION = 0.05, MIN_HIGH_CONF_ACCURACY = 0.60. -/
def evaluate_promotion (candidate : String) (activeOpt : Option String)
    (data : List Signal) : Option (Bool × List GateReason) :=
  if data.isEmpty then some (false, [GateReason.noData])
  else
    match resolveActive candidate activeOpt data with
    | none => some (false, [GateReason.noActive])
    | some active =>
      let cand_df := data.filter (fun s => s.model_id == candidate)
      let active_df := data.filter (fun s => s.model_id == active)
      match (calculate_metrics cand_df).1, (calculate_metrics active_df).1 with
      | some cm, some am =>
        -- Rule 1: minimum samples
        let r1 := decide (cm.count < 50)
        -- Rule 2: global win-rate improvement
        let r2 := decide (cm.win_rate - am.win_rate < 5/1000)
        -- Rule 3: per-regime regression, iterating the active model's regimes
        let regressions := am.regime_wr.filterMap (fun p =>
          match cm.regime_wr.lookup p.1 with
          | some cwr => if cwr - p.2 < -(5/100) then some (GateReason.regimeRegression p.1) else none
          | none => none)
        -- Rule 4: calibration of the top confidence bucket
        let r4 := decide (cm.bucket_wr Bucket.High < 6/10)
        let reasons :=
          (if r1 then [GateReason.insufficientSamples] else []) ++
          (if r2 then [GateReason.insufficientImprovement] else []) ++
          regressions ++
          (if r4 then [GateReason.calibrationFailure] else [])
        some (!(r1 || r2 || !regressions.isEmpty || r4), reasons)
      | _, _ => none

/-! ## LifecycleController — `backend/ai-layer/scripts/promote_model.py`
and `backend/ai-layer/scripts/rollback_model.py`

A model-manifest entry (`manifest.json`, key `models`).  `state` is
`none` when the entry has no `state` key (`entry.get('state')`); the
timestamp fields mirror the keys the scripts write.  The `ts` argument
stands for `datetime.utcnow().isoformat() + "Z"`. -/

structure ManifestEntry where
  filename : String
  state : Option String
  promoted_at : Option String
  archived_at : Option String
  rolled_back_at : Option String
  rollback_target : Bool
deriving DecidableEq, Repr

/-- The body of `promote`'s manifest loop for one entry:
the entry matching the promoted filename becomes ACTIVE, otherwise a
currently ACTIVE entry becomes ARCHIVED, otherwise unchanged. -/
def promoteStep (target ts : String) (e : ManifestEntry) : ManifestEntry :=
  if e.filename = target then
    { e with state := some "ACTIVE", promoted_at := some ts }
  else if e.state = some "ACTIVE" then
    { e with state := some "ARCHIVED", archived_at := some ts }
  else e

/-- `promote(model_filename)` from `promote_model.py`, restricted to its
manifest transaction.  The preceding file-existence checks live on the
file system and stay outside the model; the metadata gate
(`validation_status != 'PASSED'` → `sys.exit(1)`) is the
`validationStatus` guard.  `none` models every `sys.exit(1)` path (no
manifest write); `some` is the single `save_json(MANIFEST_PATH, ...)`. -/
def promote (validationStatus : String) (target ts : String)
    (models : List ManifestEntry) : Option (List ManifestEntry) :=
  if validationStatus ≠ "PASSED" then none
  else
    let updatedModels := models.map (promoteStep target ts)
    if models.any (fun e => e.filename == target) then some updatedModels else none

/-- The body of `rollback`'s manifest loop for one entry: first the
deactivation branch (`state == 'ACTIVE'` → ROLLED_BACK), then — on the
same entry, in the same iteration — the activation branch
(`filename == target` → ACTIVE). -/
def rollbackStep (target ts : String) (e : ManifestEntry) : ManifestEntry :=
  let e1 :=
    if e.state = some "ACTIVE" then
      { e with state := some "ROLLED_BACK", rolled_back_at := some ts }
    else e
  if e1.filename = target then
    { e1 with state := some "ACTIVE", promoted_at := some ts, rollback_target := true }
  else e1

/-- `rollback(target_model_filename)` from `rollback_model.py`, restricted
to its manifest transaction.  `none` models the `sys.exit(1)` when the
target is absent from the manifest (`updated_target` stays false). -/
def rollback (target ts : String)
    (models : List ManifestEntry) : Option (List ManifestEntry) :=
  let updatedModels := models.map (rollbackStep target ts)
  if models.any (fun e => e.filename == target) then some updatedModels else none

/-- An entry currently holding lifecycle state ACTIVE. -/
def isActive (e : ManifestEntry) : Bool :=
  e.state == some "ACTIVE"

/-! ## SafetyCircuit — `backend/ai-layer/scripts/detect_auto_disable.py` -/

/-- Substring test (`"CRITICAL" in alert` in Python), computed over the
character lists: the needle occurs iff it is a prefix of some suffix. -/
def containsSub (needle s : String) : Bool :=
  (List.range (s.toList.length + 1)).any
    (fun i => List.isPrefixOf needle.toList (s.toList.drop i))

/-- The `ai_status.json` document written by the auto-disable check. -/
structure SafetyStatus where
  status : String
  reason : String
  timestamp : String
  triggered_by : String
deriving DecidableEq, Repr

/-- The trigger list accumulated by `detect_auto_disable`: CRITICAL drift
alerts, every decay alert, and regime alerts mentioning UNKNOWN REGIME or
VOLATILITY EXPANSION, each prefixed with its source.  A `none` report
models a missing report file (the `os.path.exists` guard). -/
def autoDisableTriggers (driftAlerts decayAlerts regimeAlerts : Option (List String)) :
    List String :=
  ((driftAlerts.getD []).filter (fun a => containsSub "CRITICAL" a)).map
      (fun a => "Drift: " ++ a) ++
  (decayAlerts.getD []).map (fun a => "Decay: " ++ a) ++
  ((regimeAlerts.getD []).filter
      (fun a => containsSub "UNKNOWN REGIME" a || containsSub "VOLATILITY EXPANSION" a)).map
      (fun a => "Regime: " ++ a)

/-- `detect_auto_disable()` as a function of the three report files'
alert lists.  `some` is the single write of `STATUS_FILE`; `none` means
the status file is left untouched (the "System Healthy" branch). -/
def detect_auto_disable (driftAlerts decayAlerts regimeAlerts : Option (List String))
    (ts : String) : Option SafetyStatus :=
  if (autoDisableTriggers driftAlerts decayAlerts regimeAlerts).isEmpty then none
  else some { status := "DISABLED"
              reason := String.intercalate "; "
                (autoDisableTriggers driftAlerts decayAlerts regimeAlerts)
              timestamp := ts
              triggered_by := "detect_auto_disable.py" }

/-! ## ReplayValidator — `backend/ai-layer/scripts/evaluate_replay.py` -/

/-- The two accuracies computed for one anchor dataset: the candidate's
and the baseline's `accuracy_score` on that anchor.  The scoring itself
(`joblib.load` + `model.predict`) is the out-of-scope `Scorer`
capability; the run is modelled on the assumption that every evaluation
succeeds (an exception would mark the run failed). -/
structure AnchorEval where
  candAcc : ℚ
  baseAcc : ℚ
deriving DecidableEq, Repr

/-- The candidate's metadata JSON (sidecar of the `.pkl`). -/
structure MetaRecord where
  algorithm : String
  validation_status : String
  validation_timestamp : Option String
deriving DecidableEq, Repr

/-- Outcome of one run of `evaluate_replay.main()`:
`skippedModels` — fewer than two models in the manifest (`sys.exit(0)`);
`skippedAnchors` — no ANCHOR datasets, validation skipped with a report
(`sys.exit(0)`, metadata untouched);
`failed` — some anchor regressed (`sys.exit(1)`, metadata untouched);
`passed meta` — every anchor passed; `meta` is the rewritten candidate
metadata when the sidecar file exists, `none` otherwise. -/
inductive ReplayOutcome where
  | skippedModels
  | skippedAnchors
  | failed
  | passed (updatedMeta : Option MetaRecord)
deriving DecidableEq, Repr

/-- `main()` of `evaluate_replay.py` given the model manifest's filename
list, the per-anchor accuracies, and the candidate's metadata file.
`ts` stands for `pd.Timestamp.utcnow().isoformat()`. -/
def evaluate_replay (models : List String) (anchors : List AnchorEval)
    (candMeta : Option MetaRecord) (ts : String) : ReplayOutcome :=
  if models.length < 2 then ReplayOutcome.skippedModels
  else if anchors.isEmpty then ReplayOutcome.skippedAnchors
  else if anchors.any (fun a => decide (a.candAcc - a.baseAcc < -(5/100))) then
    ReplayOutcome.failed
  else
    ReplayOutcome.passed (candMeta.map (fun m =>
      { m with validation_status := "PASSED", validation_timestamp := some ts }))

/-! ## RegimeShiftMonitor — `apps/ai-layer/scripts/detect_regime_shift.py`

The input list is the fetched attributed window after
`sort_values('created_at')`, i.e. the time-ordered signal window.
`volatility` is `metadata.technicals.volatility` with default `0`;
`regime` is the value appended to `df['regime_label']` by
`row.get('regime', 'UNKNOWN')` — `none` models a null cell (pandas
`NaN`); a missing `regime` column would yield the string `"UNKNOWN"`
for every row. -/

structure RSignal where
  volatility : ℚ
  regime : Option String
deriving DecidableEq, Repr

/-- Mean of a rational series (`Series.mean`). -/
def listMean (l : List ℚ) : ℚ :=
  l.sum / (l.length : ℚ)

/-- Pandas element-wise `!=` between a label and its `shift()`ed
predecessor: any comparison involving `NaN` (here `none`) is `True`,
including `NaN != NaN`. -/
def pandasNe (a b : Option String) : Bool :=
  a.isNone || b.isNone || a != b

/-- The alert messages of `detect_regime_shift`, abstracted from their
interpolated payloads: `volatilityExpansion` = "⚠ VOLATILITY EXPANSION: ...",
`unstableRegime` = "⚠ UNSTABLE REGIME: High flicker rate ...",
`unknownDominance` = "⚠ UNKNOWN REGIME DOMINANCE: ...".  (Volatility
compression is only printed, never appended to the alert list.) -/
inductive RegimeAlert where
  | volatilityExpansion
  | unstableRegime
  | unknownDominance
deriving DecidableEq, Repr

/-- The `regime_report.json` document (timestamp omitted). -/
structure RegimeReport where
  volatility_ratio : ℚ
  flicker_rate : ℚ
  alerts : List RegimeAlert
deriving DecidableEq, Repr

/-- `detect_regime_shift()` over the time-ordered window.  `none` models
the runs that write no report: empty data, or fewer than 200 rows.
`int(len(df) * 0.8)` agrees with `⌊8n/10⌋` for every window size that
occurs (the float product of `n` and `0.8` truncates to the same
integer). -/
def detect_regime_shift (data : List RSignal) : Option RegimeReport :=
  if data.isEmpty then none
  else if data.length < 200 then none
  else
    let split := data.length * 8 / 10
    let refVol := listMean ((data.take split).map (fun s => s.volatility))
    let currVol := listMean ((data.drop split).map (fun s => s.volatility))
    let ratio := if refVol > 0 then currVol / refVol else 1
    let recent := (data.drop split).map (fun s => s.regime)
    -- (recent_regimes != recent_regimes.shift()).sum(): the shifted series
    -- starts with NaN, so the first position always compares unequal.
    let changes := (recent.zip (none :: recent)).countP (fun p => pandasNe p.1 p.2)
    let flicker := (changes : ℚ) / (recent.length : ℚ)
    let unknownShare := (recent.countP (fun r => r == some "UNKNOWN") : ℚ) / (recent.length : ℚ)
    let alerts :=
      (if ratio > 2 then [RegimeAlert.volatilityExpansion] else []) ++
      (if flicker > 3/10 then [RegimeAlert.unstableRegime] else []) ++
      (if unknownShare > 1/2 then [RegimeAlert.unknownDominance] else [])
    some { volatility_ratio := ratio, flicker_rate := flicker, alerts := alerts }

/-- Number of regime-label changes between consecutive positions
strictly inside a slice: mismatching pairs `(l[i], l[i+1])` under the
pandas `!=`. -/
def adjChanges (labels : List (Option String)) : ℕ :=
  (labels.zip labels.tail).countP (fun p => pandasNe p.1 p.2)

/-- Modelled from the claim's words, for comparison with the code: the
fraction of positions in the most recent 20% slice whose regime label
differs from the immediately preceding signal's label — the predecessor
taken in the full time-ordered window — divided by the slice length. -/
def specFlickerRate (data : List RSignal) : ℚ :=
  let n := data.length
  let split := n * 8 / 10
  let labels := data.map (fun s => s.regime)
  ((((List.range n).countP (fun i =>
      decide (split ≤ i) && (labels.getD i none != labels.getD (i - 1) none))) : ℕ) : ℚ)
    / (((n - split : ℕ) : ℚ))

/-! ## DriftMonitor — `backend/ai-layer/scripts/detect_drift.py`

The input list is the fetched attributed window after
`sort_values('created_at')`.  The `shadow_signals` rows always carry the
`confidence`, `outcome` and `regime` columns (`select=*`), so the two
`in df.columns` guards hold. -/

structure DSignal where
  confidence : ℚ
  outcome : String
  regime : Option String
deriving DecidableEq, Repr

/-- `governance_metrics.json` — the fields read by `detect_drift`. -/
structure DriftConfig where
  baseline_wr : ℚ
  warning_deviation : ℚ
  critical_deviation : ℚ
deriving DecidableEq, Repr

/-- The alert messages of `detect_drift`, abstracted from their
interpolated payloads: `confidenceShift` = "Confidence distribution
shifted by ...", `winRateCollapse` = "CRITICAL: Win Rate Collapse
Detected", `winRateDegradation` = "WARNING: Win Rate Degradation",
`dominantRegimeChange` = "Dominant Regime Changed: ref -> curr". -/
inductive DriftAlert where
  | confidenceShift
  | winRateCollapse
  | winRateDegradation
  | dominantRegimeChange (refDom currDom : String)
deriving DecidableEq, Repr

/-- `value_counts(normalize=True).idxmax()` over a regime column slice:
null cells are dropped, the label with the greatest count wins (first
occurrence on ties), `"N/A"` when the slice holds no label. -/
def dominantRegime (l : List (Option String)) : String :=
  let vals := l.filterMap id
  let best := vals.dedup.foldl (fun b k =>
    match b with
    | none => some k
    | some b0 =>
      if vals.countP (fun v => v == k) > vals.countP (fun v => v == b0) then some k
      else some b0) none
  best.getD "N/A"

/-- The `drift_report.json` document (timestamp omitted; the JSON stores
the two metric values rounded to 4 decimal places for display, kept
exact here). -/
structure DriftReport where
  confidence_drift : ℚ
  wr_drift : ℚ
  alerts : List DriftAlert
deriving DecidableEq, Repr

/-- `detect_drift()` as a function of the governance config and the
time-ordered window.  `none` models every run that returns before the
report/alert-log writes: missing config, empty data, or fewer than 100
samples.  `some r` is the single `drift_report.json` write; the alert
log is appended exactly when `r.alerts` is non-empty. -/
def detect_drift (config : Option DriftConfig) (data : List DSignal) :
    Option DriftReport :=
  match config with
  | none => none
  | some cfg =>
    if data.isEmpty then none
    else if data.length < 100 then none
    else
      let split := data.length * 8 / 10
      let refDf := data.take split
      let currDf := data.drop split
      let confMeanDiff :=
        listMean (currDf.map (fun s => s.confidence)) -
          listMean (refDf.map (fun s => s.confidence))
      let currWr := (currDf.countP (fun s => s.outcome == "WIN") : ℚ) / (currDf.length : ℚ)
      -- `baseline_wr if baseline_wr else 0.5`: Python falsiness maps a zero
      -- baseline to 0.5.
      let baseline := if cfg.baseline_wr = 0 then 1/2 else cfg.baseline_wr
      let wrDrift := currWr - baseline
      let refDom := dominantRegime (refDf.map (fun s => s.regime))
      let currDom := dominantRegime (currDf.map (fun s => s.regime))
      let alerts :=
        (if |confMeanDiff| > 1/10 then [DriftAlert.confidenceShift] else []) ++
        (if wrDrift < -cfg.critical_deviation then [DriftAlert.winRateCollapse]
         else if wrDrift < -cfg.warning_deviation then [DriftAlert.winRateDegradation]
         else []) ++
        (if refDom ≠ currDom then [DriftAlert.dominantRegimeChange refDom currDom] else [])
      some { confidence_drift := confMeanDiff, wr_drift := wrDrift, alerts := alerts }

/-! ## Helper lemmas about `calculate_metrics` -/

/-- The per-row effect of `calculate_metrics`'s two column assignments:
the coerced `realized_pnl` and the assigned `conf_bucket`. -/
def coerceBucketSig (s : Signal) : Signal :=
  { s with realized_pnl := some (s.realized_pnl.getD 0)
           conf_bucket := confBucket s.confidence }

theorem calculate_metrics_snd (l : List Signal) (h : l ≠ []) :
    (calculate_metrics l).2 = l.map coerceBucketSig := by
  unfold calculate_metrics
  rw [if_neg (by simpa using h)]
  simp only [List.map_map]
  rfl

theorem listWinRate_map_coerce (l : List Signal) :
    listWinRate (l.map coerceBucketSig) = listWinRate l := by
  unfold listWinRate
  rw [List.length_map, List.countP_map]
  rfl

theorem filter_bucket_map_coerce (l : List Signal) (b : Bucket) :
    (l.map coerceBucketSig).filter (fun s => s.conf_bucket == some b)
      = (l.filter (fun s => confBucket s.confidence == some b)).map coerceBucketSig := by
  rw [List.filter_map]
  rfl

theorem bucket_wr_aux (l : List Signal) (b : Bucket) :
    (if 0 < (((l.map (fun s => { s with realized_pnl := some (s.realized_pnl.getD 0) })).map
          (fun s => { s with conf_bucket := confBucket s.confidence })).filter
          (fun s => s.conf_bucket == some b)).length
     then
       listWinRate (((l.map (fun s => { s with realized_pnl := some (s.realized_pnl.getD 0) })).map
          (fun s => { s with conf_bucket := confBucket s.confidence })).filter
          (fun s => s.conf_bucket == some b))
     else 0)
    = (if 0 < (l.filter (fun s => confBucket s.confidence == some b)).length
       then listWinRate (l.filter (fun s => confBucket s.confidence == some b))
       else 0) := by
  rw [List.map_map]
  rw [(show ((fun s : Signal => { s with conf_bucket := confBucket s.confidence }) ∘
        (fun s : Signal => { s with realized_pnl := some (s.realized_pnl.getD 0) }))
      = coerceBucketSig from rfl)]
  rw [filter_bucket_map_coerce, listWinRate_map_coerce, List.length_map]

theorem total_pnl_aux (l : List Signal) :
    ((l.map (fun s => { s with realized_pnl := some (s.realized_pnl.getD 0) })).map
        (fun s : Signal => s.realized_pnl.getD 0)).sum
      = (l.map (fun s => s.realized_pnl.getD 0)).sum := by
  rw [List.map_map]
  rfl

theorem calculate_metrics_fst (l : List Signal) (h : l ≠ []) :
    ∃ m, (calculate_metrics l).1 = some m
      ∧ m.count = l.length
      ∧ m.win_rate = listWinRate l
      ∧ m.total_pnl = (l.map (fun s => s.realized_pnl.getD 0)).sum
      ∧ (∀ b, m.bucket_wr b =
          (if 0 < (l.filter (fun s => confBucket s.confidence == some b)).length
           then listWinRate (l.filter (fun s => confBucket s.confidence == some b))
           else 0)) := by
  have hne : ¬ l.length = 0 := by simpa using h
  unfold calculate_metrics
  rw [if_neg hne]
  exact ⟨_, rfl, rfl, rfl, total_pnl_aux l, fun b => bucket_wr_aux l b⟩

/-! ## Claim theorems -/

/-- C6, counterexample.  The claim states that `calculate_metrics` on an
empty collection returns a record with all metrics fields present and
zeroed; in fact it returns the bare empty dict `{}` (modelled `none`),
with no fields at all. -/
theorem c6_counterexample :
    ¬ ∃ m, (calculate_metrics []).1 = some m := by
  simp [calculate_metrics]

/-- C6, amended: `calculate_metrics` applied to an empty signal
collection never raises, but it returns the empty dict `{}` — a record
with no fields, not a zeroed metrics record — and leaves the collection
untouched. -/
theorem c6_amended :
    calculate_metrics [] = (none, []) := rfl

/-- C9, counterexample.  The claim states `calculate_metrics` leaves the
input collection unchanged; on this one-signal input it rewrites
`realized_pnl` (null coerced to `0`) and adds the `conf_bucket` column
to the caller's rows. -/
theorem c9_counterexample :
    (calculate_metrics [{ model_id := "m", outcome := "WIN", confidence := 7/10,
                          realized_pnl := none, regime := none, conf_bucket := none }]).2
      ≠ [{ model_id := "m", outcome := "WIN", confidence := 7/10,
           realized_pnl := none, regime := none, conf_bucket := none }] := by
  simp [calculate_metrics]

/-- C9, amended: `calculate_metrics` is pure in its returned value but
not in its argument — on every non-empty input it mutates the caller's
collection, coercing each row's `realized_pnl` (missing/non-numeric to
`0`) and adding the `conf_bucket` column; every other field of every row
is left unchanged, and an empty input is returned untouched. -/
theorem c9_amended (sigs : List Signal) (h : sigs ≠ []) :
    (calculate_metrics sigs).2
      = sigs.map (fun s => { s with realized_pnl := some (s.realized_pnl.getD 0)
                                    conf_bucket := confBucket s.confidence }) :=
  calculate_metrics_snd sigs h

/-- C9 witness: the amended theorem at the one-signal input. -/
theorem c9_amended_witness :
    (calculate_metrics [{ model_id := "m", outcome := "WIN", confidence := 7/10,
                          realized_pnl := none, regime := none, conf_bucket := none }]).2
      = [{ model_id := "m", outcome := "WIN", confidence := 7/10,
           realized_pnl := some 0, regime := none, conf_bucket := some Bucket.Mid }] := by
  rw [c9_amended _ (by simp)]
  norm_num [confBucket]

/-- The auto-disable trigger list is empty exactly when no report holds a
qualifying alert. -/
theorem autoDisableTriggers_eq_nil_iff (driftAlerts decayAlerts regimeAlerts : Option (List String)) :
    autoDisableTriggers driftAlerts decayAlerts regimeAlerts = [] ↔
      ¬ ((∃ a ∈ driftAlerts.getD [], containsSub "CRITICAL" a = true)
         ∨ decayAlerts.getD [] ≠ []
         ∨ (∃ a ∈ regimeAlerts.getD [],
              (containsSub "UNKNOWN REGIME" a || containsSub "VOLATILITY EXPANSION" a) = true)) := by
  simp only [autoDisableTriggers, List.append_eq_nil, List.map_eq_nil_iff,
    List.filter_eq_nil_iff]
  push_neg
  tauto

/-- C2: the automatic safety check writes a DISABLED status — carrying
the concatenated trigger reasons and the triggering source — if and only
if the monitor reports contain a qualifying trigger (a CRITICAL drift
alert, any decay alert, or an UNKNOWN-REGIME / VOLATILITY-EXPANSION
regime alert); with no trigger the status file is left unchanged
(`none`), and no written status is ever ENABLED, so an automatic run
never transitions DISABLED back to ENABLED. -/
theorem c2_safety_circuit (driftAlerts decayAlerts regimeAlerts : Option (List String))
    (ts : String) :
    ((∃ s, detect_auto_disable driftAlerts decayAlerts regimeAlerts ts = some s) ↔
       ((∃ a ∈ driftAlerts.getD [], containsSub "CRITICAL" a = true)
        ∨ decayAlerts.getD [] ≠ []
        ∨ (∃ a ∈ regimeAlerts.getD [],
             (containsSub "UNKNOWN REGIME" a || containsSub "VOLATILITY EXPANSION" a) = true)))
    ∧ (∀ s, detect_auto_disable driftAlerts decayAlerts regimeAlerts ts = some s →
        s.status = "DISABLED"
        ∧ s.reason = String.intercalate "; "
            (autoDisableTriggers driftAlerts decayAlerts regimeAlerts)
        ∧ s.triggered_by = "detect_auto_disable.py"
        ∧ s.status ≠ "ENABLED") := by
  constructor
  · constructor
    · rintro ⟨s, hs⟩
      unfold detect_auto_disable at hs
      by_cases hT : (autoDisableTriggers driftAlerts decayAlerts regimeAlerts).isEmpty
      · rw [if_pos hT] at hs
        exact absurd hs (by simp)
      · have : autoDisableTriggers driftAlerts decayAlerts regimeAlerts ≠ [] := by
          simpa [List.isEmpty_iff] using hT
        by_contra hnot
        exact this ((autoDisableTriggers_eq_nil_iff _ _ _).mpr hnot)
    · intro h
      have hne : autoDisableTriggers driftAlerts decayAlerts regimeAlerts ≠ [] := by
        intro hnil
        exact (autoDisableTriggers_eq_nil_iff _ _ _).mp hnil h
      refine ⟨{ status := "DISABLED",
                reason := String.intercalate "; "
                  (autoDisableTriggers driftAlerts decayAlerts regimeAlerts),
                timestamp := ts,
                triggered_by := "detect_auto_disable.py" }, ?_⟩
      unfold detect_auto_disable
      rw [if_neg (by simpa [List.isEmpty_iff] using hne)]
  · intro s hs
    unfold detect_auto_disable at hs
    by_cases hT : (autoDisableTriggers driftAlerts decayAlerts regimeAlerts).isEmpty
    · rw [if_pos hT] at hs
      exact absurd hs (by simp)
    · rw [if_neg hT] at hs
      cases hs
      exact ⟨rfl, rfl, rfl, by simp⟩

/-- C2 witness: a CRITICAL drift alert makes the check write a DISABLED
status. -/
theorem c2_safety_circuit_witness :
    ∃ s, detect_auto_disable (some ["CRITICAL: Win Rate Collapse Detected"])
          (some []) (some []) "t" = some s ∧ s.status = "DISABLED" := by
  obtain ⟨h1, h2⟩ := c2_safety_circuit (some ["CRITICAL: Win Rate Collapse Detected"])
    (some []) (some []) "t"
  obtain ⟨s, hs⟩ := h1.mpr (Or.inl ⟨"CRITICAL: Win Rate Collapse Detected", by simp, by decide⟩)
  exact ⟨s, hs, (h2 s hs).1⟩

/-- C10: given a non-empty window of fewer than 100 signals, the drift
monitor returns before any analysis: it writes no drift report (any
previous `drift_report.json` stays as it was on disk), emits no alert
and appends nothing to the alert log — all modelled by the `none`
outcome. -/
theorem c10_drift_small_window (config : Option DriftConfig) (data : List DSignal)
    (h1 : data ≠ []) (h2 : data.length < 100) :
    detect_drift config data = none := by
  cases config with
  | none => rfl
  | some cfg =>
    simp [detect_drift, List.isEmpty_iff, h1, h2]

/-- C10 witness: a single-signal window produces no drift report. -/
theorem c10_drift_small_window_witness :
    detect_drift (some { baseline_wr := 1/2, warning_deviation := 1/20,
                         critical_deviation := 3/20 })
        [{ confidence := 1/2, outcome := "WIN", regime := none }] = none :=
  c10_drift_small_window _ _ (by simp) (by simp)

/-! ### Helper lemmas for the manifest transactions -/

theorem promoteStep_filename (target ts : String) (e : ManifestEntry) :
    (promoteStep target ts e).filename = e.filename := by
  unfold promoteStep
  split_ifs <;> rfl

theorem isActive_promoteStep (target ts : String) (e : ManifestEntry) :
    isActive (promoteStep target ts e) = (e.filename == target) := by
  unfold promoteStep
  split_ifs with h1 h2
  · simp [isActive, h1]
  · simp [isActive, beq_iff_eq, h1]
  · simp [isActive, beq_iff_eq, h1, h2]

theorem promoteStep_archives (target ts : String) (e : ManifestEntry)
    (ha : isActive e = true) (hf : e.filename ≠ target) :
    promoteStep target ts e = { e with state := some "ARCHIVED", archived_at := some ts } := by
  have hs : e.state = some "ACTIVE" := by simpa [isActive, beq_iff_eq] using ha
  unfold promoteStep
  rw [if_neg hf, if_pos hs]

theorem rollbackStep_filename (target ts : String) (e : ManifestEntry) :
    (rollbackStep target ts e).filename = e.filename := by
  unfold rollbackStep
  by_cases ha : e.state = some "ACTIVE" <;> by_cases hf : e.filename = target <;>
    simp [ha, hf]

theorem isActive_rollbackStep (target ts : String) (e : ManifestEntry) :
    isActive (rollbackStep target ts e) = (e.filename == target) := by
  unfold rollbackStep
  by_cases ha : e.state = some "ACTIVE" <;> by_cases hf : e.filename = target <;>
    simp [ha, hf, isActive, beq_iff_eq]

theorem rollbackStep_deactivates (target ts : String) (e : ManifestEntry)
    (ha : isActive e = true) (hf : e.filename ≠ target) :
    rollbackStep target ts e
      = { e with state := some "ROLLED_BACK", rolled_back_at := some ts } := by
  have hs : e.state = some "ACTIVE" := by simpa [isActive, beq_iff_eq] using ha
  simp [rollbackStep, hs, hf]

/-- C1: on a manifest in which the target filename occurs exactly once
and at most one entry is ACTIVE, a successful `promote` leaves exactly
one entry ACTIVE (the promoted one) and, within the same single manifest
write, turns every previously ACTIVE non-target entry ARCHIVED; a
successful `rollback` likewise leaves exactly the target ACTIVE and
turns the previously ACTIVE entry ROLLED_BACK — so both operations
preserve the exactly-one-ACTIVE invariant. -/
theorem c1_lifecycle_exactly_one_active
    (models : List ManifestEntry) (vstatus target ts : String)
    (huniq : models.countP (fun e => e.filename == target) = 1)
    (hatmost : models.countP isActive ≤ 1) :
    (∀ result, promote vstatus target ts models = some result →
       result.countP isActive = 1
       ∧ (∀ e ∈ result, isActive e = true → e.filename = target)
       ∧ (∀ e ∈ models, isActive e = true → e.filename ≠ target →
            { e with state := some "ARCHIVED", archived_at := some ts } ∈ result))
    ∧ (∀ result, rollback target ts models = some result →
       result.countP isActive = 1
       ∧ (∀ e ∈ result, isActive e = true → e.filename = target)
       ∧ (∀ e ∈ models, isActive e = true → e.filename ≠ target →
            { e with state := some "ROLLED_BACK", rolled_back_at := some ts } ∈ result)) := by
  constructor
  · intro result hres
    unfold promote at hres
    split_ifs at hres with hv hany
    · have hmap : result = models.map (promoteStep target ts) := by
        injection hres with h
        exact h.symm
      subst hmap
      refine ⟨?_, ?_, ?_⟩
      · rw [List.countP_map]
        rw [List.countP_congr (fun e _ => ?_)]
        · exact huniq
        · rw [Function.comp_apply, isActive_promoteStep]
      · intro e he hae
        obtain ⟨a, ha, rfl⟩ := List.mem_map.mp he
        rw [isActive_promoteStep] at hae
        rw [promoteStep_filename]
        exact beq_iff_eq.mp hae
      · intro e he hae hf
        rw [← promoteStep_archives target ts e hae hf]
        exact List.mem_map_of_mem _ he
  · intro result hres
    unfold rollback at hres
    split_ifs at hres with hany
    · have hmap : result = models.map (rollbackStep target ts) := by
        injection hres with h
        exact h.symm
      subst hmap
      refine ⟨?_, ?_, ?_⟩
      · rw [List.countP_map]
        rw [List.countP_congr (fun e _ => ?_)]
        · exact huniq
        · rw [Function.comp_apply, isActive_rollbackStep]
      · intro e he hae
        obtain ⟨a, ha, rfl⟩ := List.mem_map.mp he
        rw [isActive_rollbackStep] at hae
        rw [rollbackStep_filename]
        exact beq_iff_eq.mp hae
      · intro e he hae hf
        rw [← rollbackStep_deactivates target ts e hae hf]
        exact List.mem_map_of_mem _ he

/-- C1 witness: promoting `b.pkl` over an ACTIVE `a.pkl` and rolling the
same manifest back to `b.pkl` each leave exactly one ACTIVE entry. -/
theorem c1_lifecycle_witness :
    ∃ result, promote "PASSED" "b.pkl" "T"
        [{ filename := "a.pkl", state := some "ACTIVE", promoted_at := none,
           archived_at := none, rolled_back_at := none, rollback_target := false },
         { filename := "b.pkl", state := some "REGISTERED", promoted_at := none,
           archived_at := none, rolled_back_at := none, rollback_target := false }]
        = some result
      ∧ result.countP isActive = 1
      ∧ (∀ e ∈ result, isActive e = true → e.filename = "b.pkl") := by
  have h := (c1_lifecycle_exactly_one_active
    [{ filename := "a.pkl", state := some "ACTIVE", promoted_at := none,
       archived_at := none, rolled_back_at := none, rollback_target := false },
     { filename := "b.pkl", state := some "REGISTERED", promoted_at := none,
       archived_at := none, rolled_back_at := none, rollback_target := false }]
    "PASSED" "b.pkl" "T" (by decide) (by decide)).1
  exact ⟨_, rfl, (h _ rfl).1, (h _ rfl).2.1⟩

/-- C3: with at least two models in the manifest, replay validation
fails exactly when some anchor's candidate accuracy trails the
baseline's by more than 0.05; an empty anchor set skips the validation
with a report and touches no metadata (the candidate remains
UNVALIDATED); and when every anchor passes, the candidate's metadata is
rewritten with `validation_status = PASSED` and a validation timestamp. -/
theorem c3_replay_validation (models : List String) (anchors : List AnchorEval)
    (candMeta : Option MetaRecord) (ts : String) (hm : 2 ≤ models.length) :
    (evaluate_replay models anchors candMeta ts = ReplayOutcome.failed ↔
       ∃ a ∈ anchors, a.candAcc - a.baseAcc < -(5/100))
    ∧ (anchors = [] →
        evaluate_replay models anchors candMeta ts = ReplayOutcome.skippedAnchors)
    ∧ (∀ m, candMeta = some m → anchors ≠ [] →
        (∀ a ∈ anchors, ¬(a.candAcc - a.baseAcc < -(5/100))) →
        evaluate_replay models anchors candMeta ts =
          ReplayOutcome.passed (some
            { m with
                validation_status := "PASSED"
                validation_timestamp := some ts })) := by
  have hml : ¬ models.length < 2 := by omega
  refine ⟨?_, ?_, ?_⟩
  · constructor
    · intro h
      unfold evaluate_replay at h
      rw [if_neg hml] at h
      by_cases hae : anchors.isEmpty
      · rw [if_pos hae] at h
        exact absurd h (by simp)
      · rw [if_neg hae] at h
        by_cases hfail : anchors.any (fun a => decide (a.candAcc - a.baseAcc < -(5/100)))
        · simpa using hfail
        · rw [if_neg hfail] at h
          exact absurd h (by simp)
    · intro h
      have hne : ¬ anchors.isEmpty := by
        obtain ⟨a, ha, _⟩ := h
        simp [List.isEmpty_iff]
        exact List.ne_nil_of_mem ha
      unfold evaluate_replay
      rw [if_neg hml, if_neg hne, if_pos (by simpa using h)]
  · intro h
    unfold evaluate_replay
    rw [if_neg hml, if_pos (by simp [h])]
  · intro m hm' hne hall
    subst hm'
    unfold evaluate_replay
    rw [if_neg hml, if_neg (by simpa [List.isEmpty_iff] using hne),
      if_neg (by simpa using hall)]
    rfl

/-- C3 witness: two anchors, one regressing by 0.10, fail the candidate;
without the regression the metadata is rewritten to PASSED. -/
theorem c3_replay_validation_witness :
    evaluate_replay ["m1.pkl", "m2.pkl"]
        [{ candAcc := 7/10, baseAcc := 8/10 }]
        (some { algorithm := "GBC", validation_status := "UNVALIDATED",
                validation_timestamp := none }) "ts"
      = ReplayOutcome.failed
    ∧ evaluate_replay ["m1.pkl", "m2.pkl"]
        [{ candAcc := 8/10, baseAcc := 8/10 }]
        (some { algorithm := "GBC", validation_status := "UNVALIDATED",
                validation_timestamp := none }) "ts"
      = ReplayOutcome.passed (some { algorithm := "GBC", validation_status := "PASSED",
                                     validation_timestamp := some "ts" }) := by
  constructor
  · exact (c3_replay_validation ["m1.pkl", "m2.pkl"]
      [{ candAcc := 7/10, baseAcc := 8/10 }]
      (some { algorithm := "GBC", validation_status := "UNVALIDATED",
              validation_timestamp := none }) "ts" (by simp)).1.mpr
      ⟨{ candAcc := 7/10, baseAcc := 8/10 }, by simp, by norm_num⟩
  · exact (c3_replay_validation ["m1.pkl", "m2.pkl"]
      [{ candAcc := 8/10, baseAcc := 8/10 }]
      (some { algorithm := "GBC", validation_status := "UNVALIDATED",
              validation_timestamp := none }) "ts" (by simp)).2.2
      { algorithm := "GBC", validation_status := "UNVALIDATED", validation_timestamp := none }
      rfl (by simp) (by intro a ha; simp at ha; subst ha; norm_num)

/-- C5, counterexample.  The claim requires the gate to reject with an
insufficient-samples reason even when the candidate has zero attributed
signals; in fact that run raises a `KeyError` at `cand_metrics['count']`
(the metrics dict of an empty frame is `{}`), so the gate returns
nothing at all. -/
theorem c5_counterexample :
    evaluate_promotion "cand" none
        [{ model_id := "act", outcome := "WIN", confidence := 8/10,
           realized_pnl := some 1, regime := none, conf_bucket := none }]
      = none := by
  simp [evaluate_promotion, resolveActive, calculate_metrics]

/-- C5, amended: whenever the baseline model is resolved and both the
candidate and the baseline have at least one attributed signal, a
candidate sample count below 50 makes the gate return `approved = false`
with an insufficient-samples reason, regardless of every other metric;
with zero candidate signals the gate instead dies with a `KeyError`. -/
theorem c5_insufficient_samples (candidate : String) (activeOpt : Option String)
    (data : List Signal) (active : String)
    (hres : resolveActive candidate activeOpt data = some active)
    (hcand : data.filter (fun s => s.model_id == candidate) ≠ [])
    (hact : data.filter (fun s => s.model_id == active) ≠ [])
    (hcount : (data.filter (fun s => s.model_id == candidate)).length < 50) :
    ∃ r, evaluate_promotion candidate activeOpt data = some r
      ∧ r.1 = false ∧ GateReason.insufficientSamples ∈ r.2 := by
  have hdataf : data.isEmpty = false := by
    rcases data with _ | ⟨d, ds⟩
    · simp at hcand
    · rfl
  obtain ⟨cm, hcm, hcmc, -, -, -⟩ := calculate_metrics_fst _ hcand
  obtain ⟨am, ham, -, -, -, -⟩ := calculate_metrics_fst _ hact
  have hr1 : decide (cm.count < 50) = true := by simp [hcmc, hcount]
  simp only [evaluate_promotion, hdataf, Bool.false_eq_true, if_false, hres, hcm, ham]
  refine ⟨_, rfl, ?_, ?_⟩
  · simp [hr1]
  · simp [hr1]

/-- C5 witness: a candidate with one signal (and a one-signal baseline)
is rejected for insufficient samples despite a perfect win rate. -/
theorem c5_insufficient_samples_witness :
    ∃ r, evaluate_promotion "cand" (some "act")
        [{ model_id := "act", outcome := "LOSS", confidence := 8/10,
           realized_pnl := some 1, regime := none, conf_bucket := none },
         { model_id := "cand", outcome := "WIN", confidence := 8/10,
           realized_pnl := some 1, regime := none, conf_bucket := none }]
        = some r
      ∧ r.1 = false ∧ GateReason.insufficientSamples ∈ r.2 :=
  c5_insufficient_samples "cand" (some "act") _ "act" rfl
    (by simp) (by simp) (by simp)

/-- A confidence strictly inside `(0, 1]` always receives a bucket. -/
theorem confBucket_isSome (c : ℚ) (h0 : 0 < c) (h1 : c ≤ 1) :
    ∃ b, confBucket c = some b := by
  unfold confBucket
  split_ifs with hA hB hC
  · exact ⟨_, rfl⟩
  · exact ⟨_, rfl⟩
  · exact ⟨_, rfl⟩
  · push_neg at hA hB hC
    exact absurd h1 (by linarith [hC (hB (hA h0))])

/-- C7, counterexample.  The claim places 0.5 in the middle bucket, 0.75
in the top bucket and 0 in the bottom bucket; `pd.cut` with default
right-closed bins in fact puts 0.5 in the bottom bucket, 0.75 in the
middle bucket, and gives 0 no bucket at all. -/
theorem c7_counterexample :
    ¬ (confBucket (1/2) = some Bucket.Mid ∧ confBucket (3/4) = some Bucket.High
       ∧ confBucket 0 = some Bucket.Low) := by
  norm_num [confBucket]
  decide

/-- C7, amended: the buckets are the left-open right-closed intervals
`(0, 0.5]`, `(0.5, 0.75]`, `(0.75, 1]`: every signal whose confidence
lies in `(0, 1]` falls in exactly one bucket, with 0.5 in the bottom
bucket and 0.75 in the middle bucket, while a confidence of exactly 0
falls in no bucket; a bucket containing zero signals reports a win rate
of 0 rather than being undefined. -/
theorem c7_confidence_buckets (sigs : List Signal) (h : sigs ≠ []) :
    (∀ s ∈ sigs, 0 < s.confidence → s.confidence ≤ 1 →
       ∃! b, confBucket s.confidence = some b)
    ∧ confBucket (1/2) = some Bucket.Low
    ∧ confBucket (3/4) = some Bucket.Mid
    ∧ confBucket 0 = none
    ∧ ∃ m, (calculate_metrics sigs).1 = some m
        ∧ ∀ b, (sigs.filter (fun s => confBucket s.confidence == some b)).length = 0 →
            m.bucket_wr b = 0 := by
  refine ⟨?_, by norm_num [confBucket], by norm_num [confBucket],
    by norm_num [confBucket], ?_⟩
  · intro s hs h0 h1
    obtain ⟨b, hb⟩ := confBucket_isSome s.confidence h0 h1
    exact ⟨b, hb, fun y hy => by rw [hb] at hy; exact (Option.some_inj.mp hy).symm⟩
  · obtain ⟨m, hm, -, -, -, hb⟩ := calculate_metrics_fst sigs h
    refine ⟨m, hm, fun b hzero => ?_⟩
    rw [hb b, if_neg (by omega)]

/-- C7 witness: the amended theorem at a one-signal input whose
confidence 0.5 lands in the bottom bucket, leaving the top bucket empty
with a reported win rate of 0. -/
theorem c7_confidence_buckets_witness :
    ∃ m, (calculate_metrics
        [{ model_id := "m"
           outcome := "WIN"
           confidence := 1/2
           realized_pnl := none
           regime := none
           conf_bucket := none }]).1 = some m
      ∧ m.bucket_wr Bucket.High = 0 := by
  obtain ⟨-, -, -, -, m, hm, hz⟩ := c7_confidence_buckets
    [{ model_id := "m"
       outcome := "WIN"
       confidence := 1/2
       realized_pnl := none
       regime := none
       conf_bucket := none }] (by simp)
  exact ⟨m, hm, hz Bucket.High (by norm_num [List.filter, confBucket]; decide)⟩

/-- A two-trigger boolean gate `!(decide p || decide q)` is `false`
exactly when one of the propositions holds. -/
theorem bool_gate (p q : Prop) [Decidable p] [Decidable q] :
    ((!(decide p || decide q)) = false ↔ (p ∨ q)) := by
  by_cases hp : p <;> by_cases hq : q <;> simp [hp, hq]

theorem foldl_min_le (a : ℚ) (l : List ℚ) : l.foldl min a ≤ a := by
  induction l generalizing a with
  | nil => exact le_refl a
  | cons x xs ih => exact le_trans (ih (min a x)) (min_le_left a x)

/-- The first per-row drawdown value is always 0 (the first cumulative
sum is its own running peak). -/
theorem ddList_cons (p : ℚ) (ps : List ℚ) : ∃ ds, ddList (p :: ps) = 0 :: ds := by
  obtain ⟨cs, hcs⟩ : ∃ cs, (List.scanl (· + ·) 0 (p :: ps)).tail = (0 + p) :: cs := by
    cases ps with
    | nil => exact ⟨[], rfl⟩
    | cons q qs => exact ⟨_, rfl⟩
  obtain ⟨rest, hrest⟩ : ∃ rest, List.scanl max (0 + p) cs = (0 + p) :: rest := by
    cases cs with
    | nil => exact ⟨[], rfl⟩
    | cons r rs => exact ⟨_, rfl⟩
  unfold ddList
  rw [hcs]
  dsimp only
  rw [hrest, List.zipWith_cons_cons]
  refine ⟨List.zipWith (· - ·) cs rest, ?_⟩
  norm_num

/-- A max drawdown is never positive, so `sim_dd < base_dd * 1.1`
reads as "more than 10% deeper (more negative) than baseline". -/
theorem calculate_drawdown_nonpos (l : List Signal) : calculate_drawdown l ≤ 0 := by
  unfold calculate_drawdown
  split_ifs with h
  · exact le_refl 0
  · cases l with
    | nil => simp at h
    | cons s ss =>
      obtain ⟨ds, hds⟩ := ddList_cons (s.realized_pnl.getD 0)
        (ss.map (fun t => t.realized_pnl.getD 0))
      rw [List.map_cons, hds]
      exact foldl_min_le 0 ds

/-- The drawdown of a frame is unchanged by `calculate_metrics`'s
in-place column rewrites (the PnL coercion is idempotent). -/
theorem calculate_drawdown_metrics_snd (l : List Signal) :
    calculate_drawdown ((calculate_metrics l).2) = calculate_drawdown l := by
  by_cases h : l = []
  · subst h; rfl
  · rw [calculate_metrics_snd l h]
    unfold calculate_drawdown
    rw [List.map_map, show (l.map coerceBucketSig).isEmpty = l.isEmpty by cases l <;> rfl]
    rfl

/-- C4: whenever both the baseline (cutoff 0.60) filter and the proposal
filter keep at least one signal, the threshold replay produces a result
whose recorded win rates and max drawdowns are exactly those of the two
filtered histories, and `passed = false` holds precisely when the
proposal's win rate is more than one percentage point below the
baseline's or its max drawdown is below 1.1 times the (non-positive)
baseline drawdown — i.e. more than 10% deeper; a total-PnL drop of more
than 20% with the proposal still net-positive only adds a warning
reason. -/
theorem c4_threshold_replay (proposedMin : ℚ) (data : List Signal)
    (hbase : data.filter (fun s => decide (s.confidence ≥ 6/10)) ≠ [])
    (hsim : data.filter (fun s => decide (s.confidence ≥ proposedMin)) ≠ []) :
    ∃ r, replay_thresholds proposedMin data = some r
      ∧ r.baseline.win_rate
          = listWinRate (data.filter (fun s => decide (s.confidence ≥ 6/10)))
      ∧ r.simulated.win_rate
          = listWinRate (data.filter (fun s => decide (s.confidence ≥ proposedMin)))
      ∧ r.baseline.max_drawdown
          = calculate_drawdown (data.filter (fun s => decide (s.confidence ≥ 6/10)))
      ∧ r.simulated.max_drawdown
          = calculate_drawdown (data.filter (fun s => decide (s.confidence ≥ proposedMin)))
      ∧ r.baseline.max_drawdown ≤ 0
      ∧ r.simulated.max_drawdown ≤ 0
      ∧ (r.passed = false ↔
          (r.simulated.win_rate < r.baseline.win_rate - 1/100
           ∨ r.simulated.max_drawdown < r.baseline.max_drawdown * (11/10)))
      ∧ ((r.simulated.total_pnl < r.baseline.total_pnl * (8/10)
            ∧ r.simulated.total_pnl > 0)
          → ReplayReason.pnlDropWarning ∈ r.reasons) := by
  have hdataf : data.isEmpty = false := by
    rcases data with _ | ⟨d, ds⟩
    · simp at hbase
    · rfl
  obtain ⟨mb, hmb, -, hmbw, -, -⟩ := calculate_metrics_fst _ hbase
  obtain ⟨ms, hms, -, hmsw, -, -⟩ := calculate_metrics_fst _ hsim
  simp only [replay_thresholds, hdataf, Bool.false_eq_true, if_false, hmb, hms]
  refine ⟨_, rfl, hmbw, hmsw, calculate_drawdown_metrics_snd _,
    calculate_drawdown_metrics_snd _, calculate_drawdown_nonpos _,
    calculate_drawdown_nonpos _, ?_, ?_⟩
  · exact bool_gate _ _
  · intro hp
    have h2 : decide ((ms.total_pnl < mb.total_pnl * (8/10) ∧ ms.total_pnl > 0)) = true :=
      decide_eq_true hp
    simp [h2]

/-- C4 witness: the spec's replay scenario — the 0.70 proposal keeps only
a losing signal, degrading the win rate by more than one point, so
`passed = false`. -/
theorem c4_threshold_replay_witness :
    ∃ r, replay_thresholds (7/10)
        [{ model_id := "m"
           outcome := "WIN"
           confidence := 65/100
           realized_pnl := some 1
           regime := none
           conf_bucket := none },
         { model_id := "m"
           outcome := "LOSS"
           confidence := 75/100
           realized_pnl := some (-1)
           regime := none
           conf_bucket := none }] = some r := by
  obtain ⟨r, hr, -, -, -, -, -, -, -, -⟩ := c4_threshold_replay (7/10)
    [{ model_id := "m"
       outcome := "WIN"
       confidence := 65/100
       realized_pnl := some 1
       regime := none
       conf_bucket := none },
     { model_id := "m"
       outcome := "LOSS"
       confidence := 75/100
       realized_pnl := some (-1)
       regime := none
       conf_bucket := none }]
    (by norm_num [List.filter]; simp) (by norm_num [List.filter])
  exact ⟨r, hr⟩

/-! ### Helper lemmas for the regime-shift monitor -/

theorem pandasNe_comm (a b : Option String) : pandasNe a b = pandasNe b a := by
  cases a <;> cases b <;> simp [pandasNe, bne, beq_iff_eq, eq_comm]

theorem pandasNe_none (a : Option String) : pandasNe a none = true := by
  cases a <;> simp [pandasNe]

theorem zip_shift_count (x : Option String) (xs : List (Option String)) :
    (xs.zip (x :: xs)).countP (fun p => pandasNe p.1 p.2)
      = ((x :: xs).zip xs).countP (fun p => pandasNe p.1 p.2) := by
  induction xs generalizing x with
  | nil => rfl
  | cons y ys ih =>
    simp only [List.zip_cons_cons, List.countP_cons, ih y, pandasNe_comm y x]

/-- The shift-comparison count of the source — the slice against itself
shifted by one, the first position compared against a missing value — is
one more than the count of changes strictly inside the slice. -/
theorem changes_shift_eq (a : Option String) (as : List (Option String)) :
    ((a :: as).zip (none :: a :: as)).countP (fun p => pandasNe p.1 p.2)
      = 1 + adjChanges (a :: as) := by
  rw [List.zip_cons_cons, List.countP_cons, zip_shift_count a as, pandasNe_none]
  simp [adjChanges, Nat.add_comm]

theorem replicate_drop {α : Type} (i n : ℕ) (a : α) :
    (List.replicate n a).drop i = List.replicate (n - i) a := by
  induction i generalizing n with
  | zero => simp
  | succ k ih =>
    cases n with
    | zero => simp
    | succ m => simp [List.replicate_succ, ih]

theorem adjChanges_replicate (k : ℕ) (x : String) :
    adjChanges (List.replicate k (some x)) = 0 := by
  unfold adjChanges
  rw [List.countP_eq_zero]
  intro p hp
  obtain ⟨a, b⟩ := p
  obtain ⟨h1, h2⟩ := List.of_mem_zip hp
  rw [List.tail_replicate] at h2
  rw [List.eq_of_mem_replicate h1, List.eq_of_mem_replicate h2]
  simp [pandasNe]

/-- Membership of the instability alert in the three-part alert list. -/
theorem mem_middle_gate (p1 p2 p3 : Prop) [Decidable p1] [Decidable p2] [Decidable p3] :
    (RegimeAlert.unstableRegime ∈
       ((if p1 then [RegimeAlert.volatilityExpansion] else []) ++
        (if p2 then [RegimeAlert.unstableRegime] else []) ++
        (if p3 then [RegimeAlert.unknownDominance] else []))
      ↔ p2) := by
  by_cases h1 : p1 <;> by_cases h2 : p2 <;> by_cases h3 : p3 <;> simp [h1, h2, h3]

/-- The spec-side flicker rate vanishes on a constant-label window. -/
theorem specFlickerRate_replicate (k : ℕ) (x : String) (v : ℚ) :
    specFlickerRate (List.replicate k { volatility := v, regime := some x }) = 0 := by
  unfold specFlickerRate
  simp only [List.length_replicate, List.map_replicate]
  have h0 : ∀ i ∈ List.range k, ¬ ((decide (k * 8 / 10 ≤ i) &&
      ((List.replicate k (some x)).getD i none
        != (List.replicate k (some x)).getD (i - 1) none)) = true) := by
    intro i hi
    rw [List.mem_range] at hi
    have h2 : i - 1 < k := by omega
    simp [List.getElem?_replicate, hi, h2]
  rw [List.countP_eq_zero.mpr h0]
  simp

/-- What the code computes on a window of at least 200 signals: the
report is written, its flicker rate is `(1 + c) / k` where `c` counts
the label changes strictly inside the recent slice and `k` is the slice
length — the slice's first element always counts as a change because it
is compared against the shifted-in missing value — and the instability
alert is present exactly when that rate exceeds 0.30. -/
theorem detect_regime_shift_flicker (data : List RSignal) (h : 200 ≤ data.length) :
    ∃ r, detect_regime_shift data = some r
      ∧ r.flicker_rate
          = (((1 + adjChanges ((data.drop (data.length * 8 / 10)).map (fun s => s.regime)) : ℕ)) : ℚ)
            / (((data.length - data.length * 8 / 10 : ℕ) : ℚ))
      ∧ (RegimeAlert.unstableRegime ∈ r.alerts ↔ r.flicker_rate > 3/10) := by
  have hne : data.isEmpty = false := by
    cases data with
    | nil => simp at h
    | cons d ds => rfl
  have h200 : ¬ data.length < 200 := by omega
  have hlt : data.length * 8 / 10 < data.length := by omega
  have hrne : (data.drop (data.length * 8 / 10)).map (fun s => s.regime) ≠ [] := by
    intro hc
    rw [List.map_eq_nil_iff] at hc
    have hlz : (data.drop (data.length * 8 / 10)).length = 0 := by rw [hc]; rfl
    rw [List.length_drop] at hlz
    omega
  obtain ⟨a, as, hras⟩ := List.exists_cons_of_ne_nil hrne
  have hlen : (a :: as).length = data.length - data.length * 8 / 10 := by
    rw [← hras]
    simp
  unfold detect_regime_shift
  rw [if_neg (by simp [hne]), if_neg h200]
  refine ⟨_, rfl, ?_, ?_⟩
  · show ((((data.drop (data.length * 8 / 10)).map (fun s => s.regime)).zip
        (none :: (data.drop (data.length * 8 / 10)).map (fun s => s.regime))).countP
        (fun p => pandasNe p.1 p.2) : ℚ)
      / (((data.drop (data.length * 8 / 10)).map (fun s => s.regime)).length : ℚ) = _
    rw [hras, changes_shift_eq, hlen]
  · exact mem_middle_gate _ _ _

/-- C8, counterexample.  On a 200-signal window whose regime label never
changes, the claim's flicker definition gives 0, but the code reports
1/40: the shift comparison always counts the recent slice's first
element as a change. -/
theorem c8_counterexample :
    (detect_regime_shift (List.replicate 200 { volatility := 0, regime := some "TREND" })).map
        RegimeReport.flicker_rate = some (1/40)
    ∧ specFlickerRate (List.replicate 200 { volatility := 0, regime := some "TREND" }) = 0
    ∧ ((1 : ℚ)/40) ≠ 0 := by
  refine ⟨?_, specFlickerRate_replicate 200 "TREND" 0, by norm_num⟩
  obtain ⟨r, hr, hf, -⟩ := detect_regime_shift_flicker
    (List.replicate 200 { volatility := 0, regime := some "TREND" })
    (List.length_replicate 200 _).ge
  rw [hr, show Option.map RegimeReport.flicker_rate (some r) = some r.flicker_rate from rfl, hf]
  rw [List.length_replicate, show (200 : ℕ) * 8 / 10 = 160 from rfl, replicate_drop,
    show (200 : ℕ) - 160 = 40 from rfl, List.map_replicate, adjChanges_replicate]
  norm_num

/-- C8, amended: on a window of at least 200 signals the report's
flicker rate equals `(1 + c) / k`, where `k` is the length of the most
recent 20% slice and `c` the number of consecutive-label changes
strictly inside it — the slice's first position is always counted as a
change, because the code compares the slice against its own shift and
the first comparison is against a missing value, not the last reference
signal — and the instability alert is emitted exactly when this rate
exceeds 0.30. -/
theorem c8_regime_flicker (data : List RSignal) (h : 200 ≤ data.length) :
    ∃ r, detect_regime_shift data = some r
      ∧ r.flicker_rate
          = (((1 + adjChanges ((data.drop (data.length * 8 / 10)).map (fun s => s.regime)) : ℕ)) : ℚ)
            / (((data.length - data.length * 8 / 10 : ℕ) : ℚ))
      ∧ (RegimeAlert.unstableRegime ∈ r.alerts ↔ r.flicker_rate > 3/10) :=
  detect_regime_shift_flicker data h

/-- C8 witness: the amended theorem at a 200-signal constant window,
whose report exists and carries flicker rate 1/40 ≤ 0.30, so no
instability alert. -/
theorem c8_regime_flicker_witness :
    ∃ r, detect_regime_shift
        (List.replicate 200 { volatility := 0, regime := some "BREAK" }) = some r := by
  obtain ⟨r, hr, -, -⟩ := c8_regime_flicker
    (List.replicate 200 { volatility := 0, regime := some "BREAK" })
    (List.length_replicate 200 _).ge
  exact ⟨r, hr⟩

end DerivWs
